import Mathlib

/-!
A shallow embedding of the per-session interview orchestration engine
(`backend/models/session.py` and `backend/services/session_processor.py`).

Conventions of the embedding:
* Python strings are Lean `String`; Python `len`, slicing and concatenation
  map to `String.length`, character-list `drop` and `++`.
* Clock readings (`time.time()`) are passed in explicitly as `Int` values
  named `now`; a function that reads the clock takes `now` as an argument.
* Fallible external collaborator calls (OCR, transcription, generation)
  are passed in as `Except Unit α` outcomes: `.error` models the call
  raising, `.ok` its returned value.
* Python float division of two nonnegative ints is modelled exactly by the
  rational `mkRat`, and the literal `0.8` by the rational `4/5`.
-/

/-! ## String helpers (Python `split` / `strip` / `in` / `join`) -/

/-- Helper for `pySplit`: accumulates the current word (reversed) while scanning. -/
def wordsAux (cur : List Char) : List Char → List String
  | [] => if cur.isEmpty then [] else [String.mk cur.reverse]
  | c :: rest =>
    if c.isWhitespace then
      if cur.isEmpty then wordsAux [] rest
      else String.mk cur.reverse :: wordsAux [] rest
    else wordsAux (c :: cur) rest

/-- Python `str.split()`: split on whitespace runs, dropping empty pieces. -/
def pySplit (s : String) : List String := wordsAux [] s.toList

/-- Python `str.lower()` (character-wise lower-casing). -/
def pyLower (s : String) : String := String.mk (s.toList.map Char.toLower)

/-- Python `str.strip()`: drop leading and trailing whitespace. -/
def pyStrip (s : String) : String :=
  String.mk (((s.toList.dropWhile Char.isWhitespace).reverse.dropWhile Char.isWhitespace).reverse)

/-- One of the characters of the Python literal `".,!?"`. -/
def isPunctChar (c : Char) : Bool := c = '.' ∨ c = ',' ∨ c = '!' ∨ c = '?'

/-- Python `str.strip(".,!?")`: drop leading and trailing punctuation. -/
def stripPunct (s : String) : String :=
  String.mk (((s.toList.dropWhile isPunctChar).reverse.dropWhile isPunctChar).reverse)

/-- Boolean prefix test on character lists (needle first). -/
def startsWith : List Char → List Char → Bool
  | [], _ => true
  | _ :: _, [] => false
  | a :: as, b :: bs => a = b && startsWith as bs

/-- Boolean contiguous-substring test on character lists (needle first). -/
def containsSubList (needle : List Char) : List Char → Bool
  | [] => needle.isEmpty
  | c :: rest => startsWith needle (c :: rest) || containsSubList needle rest

/-- Python `needle in hay` on strings. -/
def containsSub (hay needle : String) : Bool := containsSubList needle.toList hay.toList

/-- Python `" ".join(...)`. -/
def joinSpace : List String → String
  | [] => ""
  | [w] => w
  | w :: rest => w ++ " " ++ joinSpace rest

/-- Python `s[-n:]` for `n > 0`: the trailing `n` characters (all of `s` if shorter). -/
def lastChars (n : Nat) (s : String) : String :=
  String.mk (s.toList.drop (s.toList.length - n))

/-! ## Word sets and Jaccard similarity -/

/-- Insert a word into a set represented as a duplicate-free list. -/
def addDistinct (acc : List String) (w : String) : List String :=
  if acc.contains w then acc else acc ++ [w]

/-- The distinct elements of a list: models Python `set(...)` (cardinality and
membership agree with set semantics). -/
def distinct (l : List String) : List String := l.foldl addDistinct []

/-- `set(text.lower().split())`. -/
def wordSet (t : String) : List String := distinct (pySplit (pyLower t))

/-- `InterviewSession._similarity`: Jaccard word-set similarity, `0` if either
word set is empty.  `mkRat inter union` is the exact value of the Python
division `intersection / union`. -/
def similarity (text1 text2 : String) : ℚ :=
  let words1 := wordSet text1
  let words2 := wordSet text2
  if words1.isEmpty ∨ words2.isEmpty then 0
  else
    let inter := (words1.filter (fun w => words2.contains w)).length
    let union := (distinct (words1 ++ words2)).length
    if union > 0 then mkRat inter union else 0

/-! ## The Session Record (`InterviewSession.__init__`) -/

inductive Stage where
  | greeting
  | awaiting_name
  | project_intro
  | presentation
deriving DecidableEq, Repr

/-- Position of a stage along greeting → awaiting_name → project_intro → presentation. -/
def Stage.rank : Stage → Nat
  | .greeting => 0
  | .awaiting_name => 1
  | .project_intro => 2
  | .presentation => 3

/-- One `{question, answer, timestamp}` entry of `qa_pairs`. -/
structure QAPair where
  question : Option String
  answer : String
  timestamp : Int
deriving DecidableEq, Repr

/-- The five numeric fields of `evaluation_scores`. -/
structure EvalScores where
  technical_depth : Int
  clarity : Int
  originality : Int
  understanding : Int
  overall : Int
deriving DecidableEq, Repr

/-- The mutable per-session state of `InterviewSession`. -/
structure Session where
  session_id : String
  context : String
  transcript : String
  questions_asked : List String
  qa_pairs : List QAPair
  last_question_time : Int
  last_speech_time : Int
  evaluation_scores : EvalScores
  recent_ocr_texts : List String
  waiting_for_answer : Bool
  current_question : Option String
  interview_stage : Stage
  student_name : String
  project_name : String
  silence_start : Option Int
  has_spoken_recently : Bool
  last_response_time : Int
deriving DecidableEq, Repr

/-- `InterviewSession.__init__(session_id)`. -/
def initSession (session_id : String) : Session :=
  { session_id := session_id
    context := ""
    transcript := ""
    questions_asked := []
    qa_pairs := []
    last_question_time := 0
    last_speech_time := 0
    evaluation_scores := ⟨0, 0, 0, 0, 0⟩
    recent_ocr_texts := []
    waiting_for_answer := false
    current_question := none
    interview_stage := .greeting
    student_name := ""
    project_name := ""
    silence_start := none
    has_spoken_recently := false
    last_response_time := 0 }

/-! ## Context Fusion: frame ingestion (`add_frame_context`) -/

/-- `deque(maxlen=5).append`: keep the 5 most recent elements. -/
def pushRecent (l : List String) (x : String) : List String :=
  let l2 := l ++ [x]
  l2.drop (l2.length - 5)

/-- `InterviewSession.add_frame_context`.  The decode/OCR pipeline is the
collaborator argument: `.error` models any decode/OCR exception (swallowed,
state unchanged), `.ok t` models `pytesseract.image_to_string` returning `t`. -/
def add_frame_context (s : Session) (ocr : Except Unit String) : Session :=
  match ocr with
  | .error _ => s
  | .ok extracted_text =>
    if pyStrip extracted_text ≠ "" then
      let is_duplicate :=
        s.recent_ocr_texts.any (fun old_text => mkRat 4 5 < similarity extracted_text old_text)
      if ¬ is_duplicate then
        let ctx1 := s.context ++ "\n[SCREEN]: " ++ pyStrip extracted_text
        let ctx2 := if ctx1.length > 5000 then lastChars 3000 ctx1 else ctx1
        { s with context := ctx2
                 recent_ocr_texts := pushRecent s.recent_ocr_texts extracted_text }
      else s
    else s

/-! ## Context Fusion: audio ingestion (`add_audio_context`) -/

/-- The outcome of one `add_audio_context` call: the new session state plus
whether the temporary wav file was created and whether it was removed. -/
structure AudioEffect where
  state : Session
  tempCreated : Bool
  tempRemoved : Bool
deriving DecidableEq, Repr

/-- The markers scanned for in the `awaiting_name` stage. -/
def nameMarkers : List String := ["i\x27m", "im", "name", "called"]

/-- The markers scanned for in the `project_intro` stage. -/
def projMarkers : List String := ["project", "called", "named"]

/-- The `awaiting_name` token scan: first marker with a following token yields
that following token, punctuation-stripped. -/
def findNameAfterMarker : List String → Option String
  | w :: next :: rest =>
    if nameMarkers.contains (pyLower w) then some (stripPunct next)
    else findNameAfterMarker (next :: rest)
  | _ => none

/-- The `awaiting_name` branch of `add_audio_context`: marker scan, then
first-word fallback when the name is still empty. -/
def updateStudentName (s : Session) (text : String) : Session :=
  let words := pySplit text
  let afterLoop :=
    match findNameAfterMarker words with
    | some n => n
    | none => s.student_name
  let name :=
    if afterLoop = "" then
      match words with
      | w :: _ => stripPunct w
      | [] => afterLoop
    else afterLoop
  { s with student_name := name }

/-- The `project_intro` token scan: first marker with a following token yields
the next up-to-3 tokens joined, punctuation-stripped. -/
def findProjAfterMarker : List String → Option String
  | w :: next :: rest =>
    if projMarkers.contains (pyLower w) then
      some (stripPunct (joinSpace (next :: rest.take 2)))
    else findProjAfterMarker (next :: rest)
  | _ => none

/-- The `project_intro` branch of `add_audio_context`: sets `project_name`
(and nothing else) when the utterance mentions a project and a marker with a
following token is found. -/
def updateProjectName (s : Session) (text : String) : Session :=
  let lower_text := pyLower text
  let p :=
    if containsSub lower_text "project" || containsSub lower_text "built"
        || containsSub lower_text "created" then
      match findProjAfterMarker (pySplit text) with
      | some p => p
      | none => s.project_name
    else s.project_name
  { s with project_name := p }

/-- The transcript-append block of `add_audio_context`: add a leading space
plus the stripped utterance to `transcript`, stamp `last_speech_time`, set
`has_spoken_recently`, clear `silence_start`. -/
def audioAppendTranscript (s : Session) (text : String) (now : Int) : Session :=
  { s with transcript := s.transcript ++ " " ++ pyStrip text
           last_speech_time := now
           has_spoken_recently := true
           silence_start := none }

/-- The stage-specific fact-extraction block of `add_audio_context`. -/
def audioExtractFacts (s : Session) (text : String) : Session :=
  if s.interview_stage = .awaiting_name then updateStudentName s text
  else if s.interview_stage = .project_intro then updateProjectName s text
  else s

/-- The answer-resolution block of `add_audio_context`: when an answer is
outstanding, append `{current_question, answer, timestamp}` to `qa_pairs` and
clear `waiting_for_answer` (the code does not clear `current_question`). -/
def audioResolveAnswer (s : Session) (text : String) (now : Int) : Session :=
  if s.waiting_for_answer then
    { s with qa_pairs := s.qa_pairs ++ [⟨s.current_question, pyStrip text, now⟩]
             waiting_for_answer := false }
  else s

/-- The transcript-cap block of `add_audio_context`: over 3000 characters,
keep the trailing 2000. -/
def audioCapTranscript (s : Session) : Session :=
  if s.transcript.length > 3000 then { s with transcript := lastChars 2000 s.transcript }
  else s

/-- `InterviewSession.add_audio_context`.  `audioLen` is the byte length of the
decoded payload; `transcription` is the collaborator outcome (`.error` models
`client.audio.transcriptions.create` raising, caught by the outer `except`).
The temp wav file is written before the collaborator call and `os.remove`d
right after it on the non-raising path only; on a non-empty stripped
transcription the four blocks above run in the order of the source. -/
def add_audio_context (s : Session) (audioLen : Nat)
    (transcription : Except Unit String) (now : Int) : AudioEffect :=
  if audioLen < 1000 then ⟨s, false, false⟩
  else
    match transcription with
    | .error _ => ⟨s, true, false⟩
    | .ok text =>
      if pyStrip text ≠ "" then
        ⟨audioCapTranscript
          (audioResolveAnswer
            (audioExtractFacts (audioAppendTranscript s text now) text) text now),
         true, true⟩
      else ⟨s, true, true⟩

/-! ## Question Policy (`should_ask_question`) -/

/-- `InterviewSession.should_ask_question`.  Returns the eligibility verdict
together with the session state, since the function mutates `silence_start`
the first time the has-spoken branch is reached. -/
def should_ask_question (s : Session) (now : Int) : Bool × Session :=
  if s.interview_stage = .greeting ∨ s.interview_stage = .awaiting_name
      ∨ s.interview_stage = .project_intro then
    (false, s)
  else if s.waiting_for_answer then (false, s)
  else if now - s.last_question_time < 5 then (false, s)
  else if 5 ≤ s.questions_asked.length then (false, s)
  else
    let s1 :=
      if s.has_spoken_recently ∧ s.silence_start = none then
        { s with silence_start := some now }
      else s
    if s.has_spoken_recently ∧ now - s.last_speech_time < 5 then (false, s1)
    else (decide ((s1.context ++ s1.transcript).length > 200), s1)

/-! ## Dialogue State Machine (`generate_conversational_response`) -/

/-- The scripted greeting emitted from the `greeting` stage. -/
def greetingMessage : String :=
  "Hello! Welcome to your project presentation interview. I\x27m your AI interviewer today. Before we begin, could you please tell me your name?"

/-- The personalized transition message out of `awaiting_name`. -/
def niceToMeetMessage (name : String) : String :=
  "Nice to meet you, " ++ name ++ "! I\x27m excited to learn about your project. Could you start by telling me what you\x27ve built and what problem it solves?"

/-- The `awaiting_name` re-prompt. -/
def nameRepromptMessage : String :=
  "I didn\x27t quite catch your name. Could you please tell me your name again?"

/-- The transition message out of `project_intro`. -/
def introThanksMessage (name : String) : String :=
  let name_part := if name ≠ "" then name ++ ", " else ""
  "Thank you " ++ name_part ++ "for that introduction! Please go ahead and share your screen to walk me through your project. I\x27ll be listening carefully and will ask questions when you pause."

/-- The `project_intro` re-prompt. -/
def projectRepromptMessage : String :=
  "Could you tell me a bit more about your project? What does it do?"

/-- `InterviewSession.generate_conversational_response`: the dialogue state
machine's single entry point.  Returns the emitted message (if any) and the
new state. -/
def generate_conversational_response (s : Session) (now : Int) :
    Option String × Session :=
  if now - s.last_response_time < 15 then (none, s)
  else
    match s.interview_stage with
    | .greeting =>
      (some greetingMessage,
       { s with interview_stage := .awaiting_name, last_response_time := now })
    | .awaiting_name =>
      if s.student_name ≠ "" then
        (some (niceToMeetMessage s.student_name),
         { s with interview_stage := .project_intro, last_response_time := now })
      else if now - s.last_response_time > 5 then
        (some nameRepromptMessage, { s with last_response_time := now })
      else (none, s)
    | .project_intro =>
      if s.transcript.length > 50 then
        (some (introThanksMessage s.student_name),
         { s with interview_stage := .presentation, last_response_time := now })
      else if now - s.last_response_time > 5 then
        (some projectRepromptMessage, { s with last_response_time := now })
      else (none, s)
    | .presentation => (none, s)

/-! ## Question Generator (`generate_question`) -/

/-- `InterviewSession.generate_question`.  `llm` is the generation-collaborator
outcome: `.error` models the call raising (swallowed), `.ok content` its
returned message content.  The eligibility check runs first and its
`silence_start` side effect persists on every path. -/
def generate_question (s : Session) (now : Int) (llm : Except Unit String) :
    Option String × Session :=
  let ok := (should_ask_question s now).1
  let s1 := (should_ask_question s now).2
  if ok then
    match llm with
    | .error _ => (none, s1)
    | .ok content =>
      let question := pyStrip content
      if question ≠ "" then
        (some question,
         { s1 with questions_asked := s1.questions_asked ++ [question]
                   current_question := some question
                   waiting_for_answer := true
                   last_question_time := now })
      else (none, s1)
  else (none, s1)

/-! ## Evaluation Trigger (`update_evaluation`) -/

/-- A parsed evaluation payload: each field may be absent (Python
`dict.update` keeps the old value for absent keys). -/
structure PartialScores where
  technical_depth : Option Int
  clarity : Option Int
  originality : Option Int
  understanding : Option Int
  overall : Option Int
deriving DecidableEq, Repr

/-- `self.evaluation_scores.update(scores)`: field-by-field merge. -/
def mergeScores (old : EvalScores) (p : PartialScores) : EvalScores :=
  { technical_depth := p.technical_depth.getD old.technical_depth
    clarity := p.clarity.getD old.clarity
    originality := p.originality.getD old.originality
    understanding := p.understanding.getD old.understanding
    overall := p.overall.getD old.overall }

/-- `InterviewSession.update_evaluation`.  `result` bundles the generation
call and the JSON parse: `.error` models either failing (swallowed, scores
untouched), `.ok p` a successfully parsed payload. -/
def update_evaluation (s : Session) (result : Except Unit PartialScores) : Session :=
  match result with
  | .error _ => s
  | .ok scores => { s with evaluation_scores := mergeScores s.evaluation_scores scores }

deriving instance DecidableEq for Except

/-! ## Operations on the session record -/

/-- One call of one of the five session operations, with its inputs
(clock readings and collaborator outcomes). -/
inductive Op where
  | frame (ocr : Except Unit String)
  | audio (audioLen : Nat) (transcription : Except Unit String) (now : Int)
  | advance (now : Int)
  | ask (now : Int) (llm : Except Unit String)
  | evaluate (result : Except Unit PartialScores)
deriving Repr

/-- The state effect of one operation (outputs discarded). -/
def applyOp (s : Session) : Op → Session
  | .frame ocr => add_frame_context s ocr
  | .audio len tr now => (add_audio_context s len tr now).state
  | .advance now => (generate_conversational_response s now).2
  | .ask now llm => (generate_question s now llm).2
  | .evaluate r => update_evaluation s r

/-- The state effect of a sequence of operations. -/
def applyOps (s : Session) (ops : List Op) : Session := ops.foldl applyOp s

/-! ## Session Worker (`process_session_data`) -/

/-- One inbound event, with the collaborator outcome its handling consumes. -/
inductive Event where
  | frame (ocr : Except Unit String)
  | audio (audioLen : Nat) (transcription : Except Unit String)
deriving DecidableEq, Repr

/-- The worker-loop state between ticks: the session, the one-time
`greeting_sent` flag, and the inbound queue. -/
structure WorkerState where
  session : Session
  greeting_sent : Bool
  queue : List Event
deriving DecidableEq, Repr

/-- The outcome of one worker tick: the new loop state, the delivered
messages, whether the Evaluation Trigger policy check of
`session_processor.py` line 49 was evaluated at all on this tick
(`evalChecked`), and whether the evaluation actually ran (`evalRan`). -/
structure TickResult where
  session : Session
  greeting_sent : Bool
  queue : List Event
  outputs : List String
  evalChecked : Bool
  evalRan : Bool
deriving Repr

/-- Step 4 of a tick: decay `has_spoken_recently` after 3 seconds of silence. -/
def decayHasSpoken (s : Session) (now : Int) : Session :=
  if s.has_spoken_recently ∧ now - s.last_speech_time > 3 then
    { s with has_spoken_recently := false }
  else s

/-- One iteration of the `while True` loop of `process_session_data`.
`websocketAttached` models `session.websocket` being non-`None`; `askLLM` and
`evalResult` are the collaborator outcomes consumed if question generation or
evaluation is reached.  All clock reads of the tick are modelled by `now`. -/
def tick (w : WorkerState) (websocketAttached : Bool) (now : Int)
    (askLLM : Except Unit String) (evalResult : Except Unit PartialScores) :
    TickResult :=
  let step1 : Session × Bool × List String :=
    if ¬ w.greeting_sent ∧ websocketAttached then
      ((generate_conversational_response w.session now).2,
       (generate_conversational_response w.session now).1.isSome || w.greeting_sent,
       (generate_conversational_response w.session now).1.toList)
    else (w.session, w.greeting_sent, [])
  let s := step1.1
  let sent := step1.2.1
  let outs := step1.2.2
  match w.queue with
  | [] =>
    { session := decayHasSpoken s now, greeting_sent := sent, queue := []
      outputs := outs, evalChecked := false, evalRan := false }
  | e :: rest =>
    let step2 : Session × List String :=
      match e with
      | .frame ocr => (add_frame_context s ocr, [])
      | .audio len tr =>
        let sa := (add_audio_context s len tr now).state
        if sa.interview_stage = Stage.awaiting_name ∨ sa.interview_stage = Stage.project_intro then
          ((generate_conversational_response sa now).2,
           if websocketAttached then (generate_conversational_response sa now).1.toList else [])
        else if sa.interview_stage = Stage.presentation then
          ((generate_question sa now askLLM).2,
           if websocketAttached then (generate_question sa now askLLM).1.toList else [])
        else (sa, [])
    let due := 0 < step2.1.questions_asked.length ∧ now % 60 < 1
    let s3 := if due then update_evaluation step2.1 evalResult else step2.1
    { session := decayHasSpoken s3 now, greeting_sent := sent, queue := rest
      outputs := outs ++ step2.2, evalChecked := true, evalRan := decide due }

/-! ## Projection lemmas -/

theorem updateStudentName_waiting (s : Session) (t : String) :
    (updateStudentName s t).waiting_for_answer = s.waiting_for_answer := rfl

theorem updateStudentName_question (s : Session) (t : String) :
    (updateStudentName s t).current_question = s.current_question := rfl

theorem updateStudentName_qa (s : Session) (t : String) :
    (updateStudentName s t).qa_pairs = s.qa_pairs := rfl

theorem updateStudentName_stage (s : Session) (t : String) :
    (updateStudentName s t).interview_stage = s.interview_stage := rfl

theorem updateProjectName_waiting (s : Session) (t : String) :
    (updateProjectName s t).waiting_for_answer = s.waiting_for_answer := rfl

theorem updateProjectName_question (s : Session) (t : String) :
    (updateProjectName s t).current_question = s.current_question := rfl

theorem updateProjectName_qa (s : Session) (t : String) :
    (updateProjectName s t).qa_pairs = s.qa_pairs := rfl

theorem updateProjectName_stage (s : Session) (t : String) :
    (updateProjectName s t).interview_stage = s.interview_stage := rfl

theorem audioExtractFacts_waiting (s : Session) (t : String) :
    (audioExtractFacts s t).waiting_for_answer = s.waiting_for_answer := by
  unfold audioExtractFacts; split_ifs <;> rfl

theorem audioExtractFacts_question (s : Session) (t : String) :
    (audioExtractFacts s t).current_question = s.current_question := by
  unfold audioExtractFacts; split_ifs <;> rfl

theorem audioExtractFacts_qa (s : Session) (t : String) :
    (audioExtractFacts s t).qa_pairs = s.qa_pairs := by
  unfold audioExtractFacts; split_ifs <;> rfl

theorem audioExtractFacts_stage (s : Session) (t : String) :
    (audioExtractFacts s t).interview_stage = s.interview_stage := by
  unfold audioExtractFacts; split_ifs <;> rfl

theorem audioExtractFacts_questionsAsked (s : Session) (t : String) :
    (audioExtractFacts s t).questions_asked = s.questions_asked := by
  unfold audioExtractFacts; split_ifs <;> rfl

theorem audioResolveAnswer_question (s : Session) (t : String) (now : Int) :
    (audioResolveAnswer s t now).current_question = s.current_question := by
  unfold audioResolveAnswer; split_ifs <;> rfl

theorem audioResolveAnswer_stage (s : Session) (t : String) (now : Int) :
    (audioResolveAnswer s t now).interview_stage = s.interview_stage := by
  unfold audioResolveAnswer; split_ifs <;> rfl

theorem audioResolveAnswer_waiting_imp (s : Session) (t : String) (now : Int) :
    (audioResolveAnswer s t now).waiting_for_answer = true →
    s.waiting_for_answer = true := by
  unfold audioResolveAnswer; split_ifs <;> simp_all

theorem audioResolveAnswer_of_waiting (s : Session) (t : String) (now : Int)
    (h : s.waiting_for_answer = true) :
    audioResolveAnswer s t now
      = { s with qa_pairs := s.qa_pairs ++ [⟨s.current_question, pyStrip t, now⟩]
                 waiting_for_answer := false } := by
  unfold audioResolveAnswer; rw [if_pos h]

theorem audioCapTranscript_waiting (s : Session) :
    (audioCapTranscript s).waiting_for_answer = s.waiting_for_answer := by
  unfold audioCapTranscript; split_ifs <;> rfl

theorem audioCapTranscript_question (s : Session) :
    (audioCapTranscript s).current_question = s.current_question := by
  unfold audioCapTranscript; split_ifs <;> rfl

theorem audioCapTranscript_qa (s : Session) :
    (audioCapTranscript s).qa_pairs = s.qa_pairs := by
  unfold audioCapTranscript; split_ifs <;> rfl

theorem audioCapTranscript_stage (s : Session) :
    (audioCapTranscript s).interview_stage = s.interview_stage := by
  unfold audioCapTranscript; split_ifs <;> rfl

theorem add_audio_state_stage (s : Session) (len : Nat) (tr : Except Unit String)
    (now : Int) :
    ((add_audio_context s len tr now).state).interview_stage = s.interview_stage := by
  cases tr with
  | error e => unfold add_audio_context; split_ifs <;> rfl
  | ok text =>
    unfold add_audio_context; dsimp only; split_ifs <;>
      simp [audioCapTranscript_stage, audioResolveAnswer_stage, audioExtractFacts_stage,
        audioAppendTranscript]

theorem add_audio_state_question (s : Session) (len : Nat) (tr : Except Unit String)
    (now : Int) :
    ((add_audio_context s len tr now).state).current_question = s.current_question := by
  cases tr with
  | error e => unfold add_audio_context; split_ifs <;> rfl
  | ok text =>
    unfold add_audio_context; dsimp only; split_ifs <;>
      simp [audioCapTranscript_question, audioResolveAnswer_question,
        audioExtractFacts_question, audioAppendTranscript]

theorem add_audio_state_waiting_imp (s : Session) (len : Nat) (tr : Except Unit String)
    (now : Int) :
    ((add_audio_context s len tr now).state).waiting_for_answer = true →
    s.waiting_for_answer = true := by
  cases tr with
  | error e => unfold add_audio_context; split_ifs <;> exact fun h => h
  | ok text =>
    unfold add_audio_context; dsimp only; split_ifs
    · exact fun h => h
    · intro h
      rw [audioCapTranscript_waiting] at h
      have h2 := audioResolveAnswer_waiting_imp _ text now h
      rwa [audioExtractFacts_waiting] at h2
    · exact fun h => h

theorem add_frame_stage (s : Session) (ocr : Except Unit String) :
    (add_frame_context s ocr).interview_stage = s.interview_stage := by
  cases ocr with
  | error e => rfl
  | ok t => unfold add_frame_context; dsimp only; split_ifs <;> rfl

theorem add_frame_waiting (s : Session) (ocr : Except Unit String) :
    (add_frame_context s ocr).waiting_for_answer = s.waiting_for_answer := by
  cases ocr with
  | error e => rfl
  | ok t => unfold add_frame_context; dsimp only; split_ifs <;> rfl

theorem add_frame_question (s : Session) (ocr : Except Unit String) :
    (add_frame_context s ocr).current_question = s.current_question := by
  cases ocr with
  | error e => rfl
  | ok t => unfold add_frame_context; dsimp only; split_ifs <;> rfl

theorem should_ask_snd_stage (s : Session) (now : Int) :
    ((should_ask_question s now).2).interview_stage = s.interview_stage := by
  unfold should_ask_question; split_ifs <;> rfl

theorem should_ask_snd_waiting (s : Session) (now : Int) :
    ((should_ask_question s now).2).waiting_for_answer = s.waiting_for_answer := by
  unfold should_ask_question; split_ifs <;> rfl

theorem should_ask_snd_question (s : Session) (now : Int) :
    ((should_ask_question s now).2).current_question = s.current_question := by
  unfold should_ask_question; split_ifs <;> rfl

theorem should_ask_snd_questionsAsked (s : Session) (now : Int) :
    ((should_ask_question s now).2).questions_asked = s.questions_asked := by
  unfold should_ask_question; split_ifs <;> rfl

theorem advance_snd_waiting (s : Session) (now : Int) :
    ((generate_conversational_response s now).2).waiting_for_answer
      = s.waiting_for_answer := by
  unfold generate_conversational_response
  rcases hs : s.interview_stage <;> dsimp only <;> split_ifs <;> rfl

theorem advance_snd_question (s : Session) (now : Int) :
    ((generate_conversational_response s now).2).current_question
      = s.current_question := by
  unfold generate_conversational_response
  rcases hs : s.interview_stage <;> dsimp only <;> split_ifs <;> rfl

theorem advance_stage_mono (s : Session) (now : Int) :
    s.interview_stage.rank
      ≤ ((generate_conversational_response s now).2).interview_stage.rank := by
  unfold generate_conversational_response
  rcases hs : s.interview_stage <;> dsimp only <;> split_ifs <;>
    simp [Stage.rank, hs]

theorem advance_output_stamps (s : Session) (now : Int) (m : String) (s' : Session)
    (h : generate_conversational_response s now = (some m, s')) :
    s'.last_response_time = now := by
  unfold generate_conversational_response at h
  rcases hs : s.interview_stage <;> rw [hs] at h <;> dsimp only at h <;>
    split_ifs at h <;> simp only [Prod.mk.injEq] at h <;>
    first
    | exact Option.noConfusion h.1
    | rw [← h.2]

theorem advance_output_gate (s : Session) (now : Int) (m : String) (s' : Session)
    (h : generate_conversational_response s now = (some m, s')) :
    15 ≤ now - s.last_response_time := by
  unfold generate_conversational_response at h
  by_cases hlt : now - s.last_response_time < 15
  · rw [if_pos hlt] at h; exact absurd h (by simp)
  · omega

theorem genq_snd_stage (s : Session) (now : Int) (llm : Except Unit String) :
    ((generate_question s now llm).2).interview_stage = s.interview_stage := by
  cases llm with
  | error e =>
    unfold generate_question; dsimp only; split_ifs <;> exact should_ask_snd_stage s now
  | ok c =>
    unfold generate_question; dsimp only; split_ifs <;> exact should_ask_snd_stage s now

theorem update_evaluation_fields (s : Session) (r : Except Unit PartialScores) :
    (update_evaluation s r).interview_stage = s.interview_stage
  ∧ (update_evaluation s r).waiting_for_answer = s.waiting_for_answer
  ∧ (update_evaluation s r).current_question = s.current_question := by
  cases r <;> exact ⟨rfl, rfl, rfl⟩

/-- A session with an outstanding question, as after one `generate_question`. -/
def answeringSession : Session :=
  { initSession "s" with waiting_for_answer := true, current_question := some "Q0" }

/-! ## The claims -/

/-- C1: the claim states that for every `add_audio_context` call whose payload
is at least 1000 bytes, the temporary audio file is released on every exit
path, including when the transcription call raises.  The code violates this:
`os.remove(temp_wav)` runs only after a non-raising transcription call, so on
a raising call the `except` handler is entered with the file still on disk.
This theorem evaluates the embedding at the failing input: a 1000-byte
payload whose transcription raises creates the temp file and never removes it. -/
theorem C1_temp_resource_leak :
    (add_audio_context (initSession "s") 1000 (Except.error ()) 0).tempCreated = true
  ∧ (add_audio_context (initSession "s") 1000 (Except.error ()) 0).tempRemoved = false := by
  decide

/-- A worker state whose session has one asked question and an empty inbound
queue: every precondition of the evaluation trigger except the dequeue. -/
def evalDueWorker : WorkerState :=
  { session := { initSession "s" with questions_asked := ["q1"] }
    greeting_sent := true
    queue := [] }

/-- C2 counterexample: on a tick with an empty inbound queue the Evaluation
Trigger policy check is skipped entirely (it sits inside the dequeue branch of
`process_session_data`), even though the session has an asked question and the
wall-clock-modulo condition holds — refuting "applied on every tick regardless
of whether an event was dequeued". -/
theorem C2_counterexample :
    (tick evalDueWorker true 60 (Except.error ()) (Except.error ())).evalChecked = false
  ∧ evalDueWorker.queue = []
  ∧ evalDueWorker.session.questions_asked.length = 1
  ∧ (60 : Int) % 60 < 1 := by decide

/-- C2 (amended): the Evaluation Trigger policy check is reached exactly on
the ticks that dequeued an event; a tick with an empty inbound queue skips
the check entirely. -/
theorem C2_eval_check_only_on_dequeue (w : WorkerState) (ws : Bool) (now : Int)
    (llm : Except Unit String) (ev : Except Unit PartialScores) :
    (tick w ws now llm ev).evalChecked = decide (w.queue ≠ []) := by
  cases hq : w.queue <;> simp [tick, hq]

/-- C3 counterexample: an answer arriving while `waiting_for_answer` is true
appends the `{question, answer, timestamp}` entry and clears
`waiting_for_answer`, but `current_question` is NOT cleared (line 136 of
`session.py` only resets `waiting_for_answer`) — refuting "both … are cleared
together". -/
theorem C3_counterexample :
    (add_audio_context answeringSession 1000 (Except.ok "Hello") 42).state.qa_pairs
      = [⟨some "Q0", "Hello", 42⟩]
  ∧ (add_audio_context answeringSession 1000 (Except.ok "Hello") 42).state.waiting_for_answer
      = false
  ∧ (add_audio_context answeringSession 1000 (Except.ok "Hello") 42).state.current_question
      = some "Q0" := by decide

/-- The combined effect of an answer arrival on `qa_pairs`,
`waiting_for_answer` and `current_question` (shared helper). -/
theorem audio_answer_fields (s : Session) (len : Nat) (text : String) (now : Int)
    (hlen : 1000 ≤ len) (hw : s.waiting_for_answer = true) (ht : pyStrip text ≠ "") :
    ((add_audio_context s len (Except.ok text) now).state).qa_pairs
      = s.qa_pairs ++ [⟨s.current_question, pyStrip text, now⟩]
  ∧ ((add_audio_context s len (Except.ok text) now).state).waiting_for_answer = false
  ∧ ((add_audio_context s len (Except.ok text) now).state).current_question
      = s.current_question := by
  unfold add_audio_context
  rw [if_neg (by omega)]
  dsimp only
  rw [if_pos ht]
  have hBw : (audioExtractFacts (audioAppendTranscript s text now) text).waiting_for_answer
      = true := by
    rw [audioExtractFacts_waiting]; exact hw
  rw [audioResolveAnswer_of_waiting _ text now hBw]
  refine ⟨?_, ?_, ?_⟩
  · rw [audioCapTranscript_qa]
    simp [audioExtractFacts_qa, audioExtractFacts_question, audioAppendTranscript]
  · rw [audioCapTranscript_waiting]
  · rw [audioCapTranscript_question]
    simp [audioExtractFacts_question, audioAppendTranscript]

/-- C3 (amended): whenever a non-empty transcription of a payload of at least
1000 bytes arrives while `waiting_for_answer` is true, a
`{current_question, answer, timestamp}` entry is appended to `qa_pairs` and
`waiting_for_answer` is cleared in the same operation; `current_question`
keeps its value (it is not cleared). -/
theorem C3_answer_append (s : Session) (len : Nat) (text : String) (now : Int)
    (hlen : 1000 ≤ len) (hw : s.waiting_for_answer = true) (ht : pyStrip text ≠ "") :
    ((add_audio_context s len (Except.ok text) now).state).qa_pairs
      = s.qa_pairs ++ [⟨s.current_question, pyStrip text, now⟩]
  ∧ ((add_audio_context s len (Except.ok text) now).state).waiting_for_answer = false
  ∧ ((add_audio_context s len (Except.ok text) now).state).current_question
      = s.current_question :=
  audio_answer_fields s len text now hlen hw ht

/-- Witness for C3 (amended) at a concrete session and utterance. -/
theorem C3_answer_append_witness :
    ((add_audio_context answeringSession 1500 (Except.ok " hi there ") 7).state).qa_pairs
      = answeringSession.qa_pairs
        ++ [⟨answeringSession.current_question, pyStrip " hi there ", 7⟩]
  ∧ ((add_audio_context answeringSession 1500 (Except.ok " hi there ") 7).state).waiting_for_answer
      = false
  ∧ ((add_audio_context answeringSession 1500 (Except.ok " hi there ") 7).state).current_question
      = answeringSession.current_question :=
  C3_answer_append answeringSession 1500 " hi there " 7 (by decide) (by decide) (by decide)

/-- C4 counterexample: the duplicate check consults only the 5 most recent
accepted extractions.  After the distinct texts b…f fill the window, a second
ingestion of "a" (similarity 1 > 0.8 with the earlier accepted "a") is
appended to `context` again — refuting "for any two OCR extractions of the
session". -/
theorem C4_counterexample :
    mkRat 4 5 < similarity "a" "a"
  ∧ (applyOps (initSession "s")
      [Op.frame (Except.ok "a"), Op.frame (Except.ok "b"), Op.frame (Except.ok "c"),
       Op.frame (Except.ok "d"), Op.frame (Except.ok "e"), Op.frame (Except.ok "f"),
       Op.frame (Except.ok "a")]).context
    = "\n[SCREEN]: a\n[SCREEN]: b\n[SCREEN]: c\n[SCREEN]: d\n[SCREEN]: e\n[SCREEN]: f\n[SCREEN]: a" := by
  decide

/-- C4 (amended): if an OCR extraction has Jaccard similarity above 0.8 with
any entry of the 5-slot window of most recently accepted extractions, it is
discarded as a duplicate: the ingestion leaves the session unchanged.  (Only
the window is consulted; older accepted extractions are not.) -/
theorem C4_window_dedup (s : Session) (text : String)
    (h : s.recent_ocr_texts.any
        (fun old_text => mkRat 4 5 < similarity text old_text) = true) :
    add_frame_context s (Except.ok text) = s := by
  unfold add_frame_context
  dsimp only
  split_ifs <;> rfl

/-- A session whose dedup window holds "hello". -/
def dupWindowSession : Session := { initSession "s" with recent_ocr_texts := ["hello"] }

/-- Witness for C4 (amended): re-ingesting "hello" is a no-op. -/
theorem C4_window_dedup_witness :
    dupWindowSession.recent_ocr_texts.any
        (fun old_text => mkRat 4 5 < similarity "hello" old_text) = true
  ∧ add_frame_context dupWindowSession (Except.ok "hello") = dupWindowSession :=
  ⟨by decide, C4_window_dedup dupWindowSession "hello" (by decide)⟩

/-- Length of a trailing slice: `lastChars n s` keeps `s.length - (s.length - n)`
characters (that is, `min n s.length`). -/
theorem length_mk (l : List Char) : (String.mk l).length = l.length := rfl

theorem lastChars_length (n : Nat) (s : String) :
    (lastChars n s).length = s.length - (s.length - n) := by
  show (s.toList.drop (s.toList.length - n)).length = s.length - (s.length - n)
  rw [List.length_drop]
  rfl

/-- C5: `advance()` is rate-limited: with fewer than 15 seconds since
`last_response_time` it returns nothing and leaves the state unchanged; the
very first invocation from the `greeting` stage (fresh `last_response_time`
of 0, wall clock at least 15) always fires; and any two consecutive
non-trivial outputs for the same session are at least 15 seconds apart. -/
theorem C5_advance_rate_limit :
    (∀ s now, now - s.last_response_time < 15 →
       generate_conversational_response s now = (none, s))
  ∧ (∀ s now, s.interview_stage = Stage.greeting → s.last_response_time = 0 →
       15 ≤ now →
       (generate_conversational_response s now).1 = some greetingMessage)
  ∧ (∀ s t1 t2 m1 m2 s1 s2,
       generate_conversational_response s t1 = (some m1, s1) →
       generate_conversational_response s1 t2 = (some m2, s2) →
       15 ≤ t2 - t1) := by
  refine ⟨?_, ?_, ?_⟩
  · intro s now h
    unfold generate_conversational_response
    rw [if_pos h]
  · intro s now hst hlrt h15
    unfold generate_conversational_response
    rw [if_neg (by omega), hst]
  · intro s t1 t2 m1 m2 s1 s2 h1 h2
    have e1 : s1.last_response_time = t1 := advance_output_stamps s t1 m1 s1 h1
    have e2 : 15 ≤ t2 - s1.last_response_time := advance_output_gate s1 t2 m2 s2 h2
    omega

/-- Witness for C5 at concrete clock values: a fresh session is silent at
t = 10, greets at t = 100, and its next output (the name re-prompt at
t = 115) is 15 seconds after the greeting. -/
theorem C5_advance_rate_limit_witness :
    generate_conversational_response (initSession "w5") 10 = (none, initSession "w5")
  ∧ (generate_conversational_response (initSession "w5") 100).1 = some greetingMessage
  ∧ (15 : Int) ≤ 115 - 100 :=
  ⟨C5_advance_rate_limit.1 (initSession "w5") 10 (by decide),
   C5_advance_rate_limit.2.1 (initSession "w5") 100 rfl rfl (by decide),
   C5_advance_rate_limit.2.2 (initSession "w5") 100 115 greetingMessage nameRepromptMessage
     ((generate_conversational_response (initSession "w5") 100).2)
     ((generate_conversational_response
         ((generate_conversational_response (initSession "w5") 100).2) 115).2)
     (by decide) (by decide)⟩

/-- C6: over any sequence of session operations (frame ingestion, audio
ingestion, dialogue advance, question generation, evaluation update) the
stage only moves forward along
greeting → awaiting_name → project_intro → presentation, measured by
`Stage.rank`; no operation regresses it. -/
theorem C6_stage_monotone (s : Session) (ops : List Op) :
    s.interview_stage.rank ≤ (applyOps s ops).interview_stage.rank := by
  induction ops generalizing s with
  | nil => exact le_refl _
  | cons op rest ih =>
    have h1 : s.interview_stage.rank ≤ (applyOp s op).interview_stage.rank := by
      cases op with
      | frame ocr => simp only [applyOp, add_frame_stage]; exact le_refl _
      | audio len tr now => simp only [applyOp, add_audio_state_stage]; exact le_refl _
      | advance now => exact advance_stage_mono s now
      | ask now llm => simp only [applyOp, genq_snd_stage]; exact le_refl _
      | evaluate r => simp only [applyOp, (update_evaluation_fields s r).1]; exact le_refl _
    exact le_trans h1 (ih (applyOp s op))

/-- C7: starting from a context within the 5000-character cap, frame
ingestion keeps it within the cap; and whenever the `[SCREEN]` append pushes
the buffer past 5000 characters, exactly the trailing 3000 characters of the
appended buffer remain. -/
theorem C7_context_cap (s : Session) (ocr : Except Unit String)
    (h : s.context.length ≤ 5000) :
    (add_frame_context s ocr).context.length ≤ 5000
  ∧ ∀ text, ocr = Except.ok text →
      pyStrip text ≠ "" →
      s.recent_ocr_texts.any (fun old_text => mkRat 4 5 < similarity text old_text)
        = false →
      5000 < (s.context ++ "\n[SCREEN]: " ++ pyStrip text).length →
      (add_frame_context s ocr).context
        = lastChars 3000 (s.context ++ "\n[SCREEN]: " ++ pyStrip text)
      ∧ (add_frame_context s ocr).context.length = 3000 := by
  constructor
  · cases ocr with
    | error e => exact h
    | ok text =>
      unfold add_frame_context
      dsimp only
      split_ifs with hne hdup hlen
      · exact h
      · show (lastChars 3000 (s.context ++ "\n[SCREEN]: " ++ pyStrip text)).length ≤ 5000
        rw [lastChars_length]
        omega
      · show (s.context ++ "\n[SCREEN]: " ++ pyStrip text).length ≤ 5000
        omega
      · exact h
  · intro text heq hne hdup hgt
    subst heq
    have hdup2 : ¬(s.recent_ocr_texts.any
        (fun old_text => mkRat 4 5 < similarity text old_text) = true) := by
      rw [hdup]; simp
    unfold add_frame_context
    dsimp only
    rw [if_pos hne, if_pos hdup2, if_pos hgt]
    refine ⟨rfl, ?_⟩
    show (lastChars 3000 (s.context ++ "\n[SCREEN]: " ++ pyStrip text)).length = 3000
    rw [lastChars_length]
    omega

/-- A context string of 4995 characters, just under the cap. -/
def bigContextSession : Session :=
  { initSession "s" with context := String.mk (List.replicate 4995 'x') }

/-- Witness for C7: ingesting "hello" into a 4995-character context crosses
the cap (4995 + 11 + 5 = 5011 > 5000) and truncates to exactly 3000. -/
theorem bigContext_len : bigContextSession.context.length = 4995 := by
  rw [show bigContextSession.context = String.mk (List.replicate 4995 'x') from rfl,
    length_mk, List.length_replicate]

theorem C7_context_cap_witness :
    bigContextSession.context.length ≤ 5000
  ∧ (add_frame_context bigContextSession (Except.ok "hello")).context.length = 3000 :=
  ⟨by rw [bigContext_len]; omega,
   ((C7_context_cap bigContextSession (Except.ok "hello") (by rw [bigContext_len]; omega)).2
     "hello" rfl (by decide) (by decide)
     (by rw [String.length_append, String.length_append, bigContext_len]; decide)).2⟩

/-- C8: with 5 questions already recorded, the question-eligibility check
returns false regardless of stage, timers, `waiting_for_answer` or buffer
contents. -/
theorem C8_five_questions_block (s : Session) (now : Int)
    (h : s.questions_asked.length = 5) :
    (should_ask_question s now).1 = false := by
  unfold should_ask_question
  split_ifs <;> first | rfl | omega

/-- A presentation-stage session with 5 recorded questions and every other
eligibility condition satisfied. -/
def cappedSession : Session :=
  { initSession "s" with
      interview_stage := .presentation
      questions_asked := ["q1", "q2", "q3", "q4", "q5"]
      context := String.mk (List.replicate 300 'y') }

/-- Witness for C8: the capped session is refused a sixth question. -/
theorem C8_five_questions_block_witness :
    cappedSession.questions_asked.length = 5
  ∧ (should_ask_question cappedSession 1000).1 = false :=
  ⟨by decide, C8_five_questions_block cappedSession 1000 (by decide)⟩

/-- Whether an optional question slot holds a non-empty question. -/
def hasNonemptyQuestion : Option String → Bool
  | some q => q ≠ ""
  | none => false

/-- The invariant of C9: `waiting_for_answer` ⇒ `current_question` is set
to a non-empty question. -/
def waitingInv (s : Session) : Prop :=
  s.waiting_for_answer = true → hasNonemptyQuestion s.current_question = true

/-- `generate_question` preserves the waiting-question invariant: it either
leaves both fields alone or sets `current_question` to the non-empty question
it just asked while raising `waiting_for_answer`. -/
theorem genq_waitingInv (s : Session) (now : Int) (llm : Except Unit String)
    (h : waitingInv s) : waitingInv ((generate_question s now llm).2) := by
  unfold generate_question
  cases llm with
  | error e =>
    dsimp only
    split_ifs <;>
      (intro hw; rw [should_ask_snd_waiting] at hw;
       rw [should_ask_snd_question]; exact h hw)
  | ok c =>
    dsimp only
    split_ifs with hok hq
    · intro hw
      show hasNonemptyQuestion (some (pyStrip c)) = true
      simp [hasNonemptyQuestion, hq]
    · intro hw; rw [should_ask_snd_waiting] at hw
      rw [should_ask_snd_question]; exact h hw
    · intro hw; rw [should_ask_snd_waiting] at hw
      rw [should_ask_snd_question]; exact h hw

/-- Every single operation preserves the waiting-question invariant. -/
theorem applyOp_waitingInv (s : Session) (op : Op) (h : waitingInv s) :
    waitingInv (applyOp s op) := by
  cases op with
  | frame ocr =>
    intro hw
    rw [show applyOp s (Op.frame ocr) = add_frame_context s ocr from rfl,
      add_frame_waiting] at hw
    rw [show applyOp s (Op.frame ocr) = add_frame_context s ocr from rfl,
      add_frame_question]
    exact h hw
  | audio len tr now =>
    intro hw
    rw [show applyOp s (Op.audio len tr now) = (add_audio_context s len tr now).state
      from rfl] at hw ⊢
    rw [add_audio_state_question]
    exact h (add_audio_state_waiting_imp s len tr now hw)
  | advance now =>
    intro hw
    rw [show applyOp s (Op.advance now) = (generate_conversational_response s now).2
      from rfl, advance_snd_waiting] at hw
    rw [show applyOp s (Op.advance now) = (generate_conversational_response s now).2
      from rfl, advance_snd_question]
    exact h hw
  | ask now llm => exact genq_waitingInv s now llm h
  | evaluate r =>
    intro hw
    rw [show applyOp s (Op.evaluate r) = update_evaluation s r from rfl,
      (update_evaluation_fields s r).2.1] at hw
    rw [show applyOp s (Op.evaluate r) = update_evaluation s r from rfl,
      (update_evaluation_fields s r).2.2]
    exact h hw

/-- C9: the invariant "`waiting_for_answer` ⇒ `current_question` is set
(non-empty)" holds for a fresh session and is preserved by every sequence of
session operations. -/
theorem C9_waiting_invariant :
    (∀ sid, waitingInv (initSession sid))
  ∧ ∀ s ops, waitingInv s → waitingInv (applyOps s ops) := by
  constructor
  · intro sid hw
    exact Bool.noConfusion hw
  · intro s ops h
    induction ops generalizing s with
    | nil => exact h
    | cons op rest ih => exact ih (applyOp s op) (applyOp_waitingInv s op h)

/-- Witness for C9: the invariant holds concretely for a fresh session and
after a greeting advance plus a frame ingestion. -/
theorem C9_waiting_invariant_witness :
    waitingInv (initSession "w9")
  ∧ waitingInv (applyOps (initSession "w9") [Op.advance 100, Op.frame (Except.ok "hi")]) :=
  ⟨C9_waiting_invariant.1 "w9",
   C9_waiting_invariant.2 (initSession "w9") [Op.advance 100, Op.frame (Except.ok "hi")]
     (by intro hw; exact Bool.noConfusion hw)⟩

/-- C10: the appended answer entry records exactly the whitespace-stripped
text of the single triggering transcription result — not the accumulated
`transcript` buffer — and the question field is the value of
`current_question` at that moment. -/
theorem C10_answer_is_single_utterance (s : Session) (len : Nat) (text : String)
    (now : Int) (hlen : 1000 ≤ len) (hw : s.waiting_for_answer = true)
    (ht : pyStrip text ≠ "") :
    ((add_audio_context s len (Except.ok text) now).state).qa_pairs
      = s.qa_pairs ++ [⟨s.current_question, pyStrip text, now⟩] :=
  (audio_answer_fields s len text now hlen hw ht).1

/-- A session mid-presentation with an outstanding question and an already
long transcript buffer. -/
def talkedSession : Session :=
  { initSession "s" with
      waiting_for_answer := true
      current_question := some "Q1"
      transcript := " earlier words in the buffer" }

/-- Witness for C10: the recorded answer is the stripped new utterance, not
the accumulated buffer. -/
theorem C10_answer_is_single_utterance_witness :
    ((add_audio_context talkedSession 1200 (Except.ok " final answer ") 9).state).qa_pairs
      = talkedSession.qa_pairs ++ [⟨talkedSession.current_question, pyStrip " final answer ", 9⟩] :=
  C10_answer_is_single_utterance talkedSession 1200 " final answer " 9
    (by decide) (by decide) (by decide)
